import Mathlib

/-!
Verification development for the Agent-Code-Tools repository: four MCP
(Model Context Protocol) tool servers (math, string, regex, date) sharing
one dispatch/transport pattern.  The definitions below are a shallow
embedding of the TypeScript sources:

* `servers/math-tools/src/index.ts` and `tools/math-tools.ts`
* `servers/regex-tools/src/index.ts` and the regex tool library
* `servers/string-tools/src/index.ts`
* the date-tools server and `DateTools` library

JavaScript numbers are modelled over `ℚ` extended with signed infinities
and NaN (`JSNum`): arithmetic is exact where IEEE-754 would round; every
claim checked here only exercises inputs on which double arithmetic is
exact, and the negative zero of IEEE-754 is identified with `0` (the two
are observationally equal in every output a claim inspects, because any
expression whose value differs only in the sign of zero or of an infinity
is caught by the `Number.isFinite` guard and mapped to the same error
string).  JSON values are modelled structurally by `JVal`; the wire text
of a response is `JSON.stringify(v, null, 2)` of the carried value, and
properties of the serialized text are stated on the carried value itself
(the serialization is an injective function of it).
-/

/-- Structural model of a JSON value (the `any`-typed tool results and the
loosely typed argument maps of the servers). -/
inductive JVal where
  | null
  | bool (b : Bool)
  | num (q : ℚ)
  | str (s : String)
  | arr (xs : List JVal)
  | obj (fields : List (String × JVal))

/-- Field lookup in a JSON object (used to state claims about individual
fields of a tool result). -/
def JVal.getField : JVal → String → Option JVal
  | .obj fields, k => (fields.find? (fun p => p.1 == k)).map (·.2)
  | _, _ => none

/-- The loosely typed `arguments` map of a call-tool request
(`request.params.arguments` in the SDK). -/
abbrev ArgMap := List (String × JVal)

/-- Lookup of one argument by name (`args.foo` in the TypeScript). -/
def lookupArg (args : ArgMap) (k : String) : Option JVal :=
  (args.find? (fun p => p.1 == k)).map (·.2)

/-- The uniform result envelope every tool function returns
(`MathToolResult` / `RegexToolResult` / `StringToolResult` /
`DateToolResult` in the sources; all four interfaces are textually
identical). -/
structure ToolResult where
  success : Bool
  result : Option JVal := none
  error : Option String := none
  metadata : Option JVal := none

/-- One `{ type: "text", text: ... }` content item of a call-tool
response.  The wire `text` is `JSON.stringify(payload, null, 2)`; the
model carries the pre-serialization `ToolResult` value. -/
structure TextContent where
  type : String := "text"
  payload : ToolResult

/-- A call-tool request: `{ name, arguments? }`.  `arguments := none`
models a request whose `arguments` field is absent. -/
structure CallToolRequest where
  name : String
  arguments : Option ArgMap

/-- A call-tool response: `{ content, isError? }`.  `isError := none`
models the field being absent (the servers omit it on the success path). -/
structure CallToolResponse where
  content : List TextContent
  isError : Option Bool := none

/-- The CallToolRequestSchema handler body shared (textually repeated) by
all four servers: reject absent `arguments` up front, then dispatch by
tool name; an exception thrown by the switch (in particular the `default:
throw new Error("Unknown tool: " + name)` case) is caught and wrapped as
`Tool execution failed: <message>` with `isError: true`.  The per-server
switch is the `dispatch` parameter; a thrown exception is its `.error`
outcome. -/
def serverHandleCallTool (dispatch : String → ArgMap → Except String ToolResult)
    (req : CallToolRequest) : CallToolResponse :=
  match req.arguments with
  | none =>
    { content := [{ payload := { success := false, error := some "No arguments provided" } }],
      isError := some true }
  | some args =>
    match dispatch req.name args with
    | .ok r => { content := [{ payload := r }] }
    | .error msg =>
      { content := [{ payload :=
          { success := false, error := some ("Tool execution failed: " ++ msg) } }],
        isError := some true }

/-!
## JavaScript number model

`JSNum` is the value space of the sandboxed `Function` evaluation in
`MathTools.calculate`.  Finite doubles are modelled exactly as rationals
(see the header comment for the rounding caveat).
-/

/-- A JavaScript number: finite (exact rational), `Infinity`,
`-Infinity`, or `NaN`. -/
inductive JSNum where
  | fin (q : ℚ)
  | posInf
  | negInf
  | nan
deriving DecidableEq

/-- JS unary minus. -/
def JSNum.neg : JSNum → JSNum
  | .fin q => .fin (-q)
  | .posInf => .negInf
  | .negInf => .posInf
  | .nan => .nan

/-- JS addition (IEEE-754 special-value rules; finite case exact). -/
def JSNum.add : JSNum → JSNum → JSNum
  | .nan, _ => .nan
  | _, .nan => .nan
  | .posInf, .negInf => .nan
  | .negInf, .posInf => .nan
  | .posInf, _ => .posInf
  | _, .posInf => .posInf
  | .negInf, _ => .negInf
  | _, .negInf => .negInf
  | .fin a, .fin b => .fin (a + b)

/-- JS subtraction: `x - y` agrees with `x + (-y)` on doubles. -/
def JSNum.sub (a b : JSNum) : JSNum := a.add b.neg

/-- JS multiplication (IEEE-754 special-value rules; finite case exact). -/
def JSNum.mul : JSNum → JSNum → JSNum
  | .nan, _ => .nan
  | _, .nan => .nan
  | .posInf, .posInf => .posInf
  | .posInf, .negInf => .negInf
  | .negInf, .posInf => .negInf
  | .negInf, .negInf => .posInf
  | .posInf, .fin b => if b = 0 then .nan else if 0 < b then .posInf else .negInf
  | .fin a, .posInf => if a = 0 then .nan else if 0 < a then .posInf else .negInf
  | .negInf, .fin b => if b = 0 then .nan else if 0 < b then .negInf else .posInf
  | .fin a, .negInf => if a = 0 then .nan else if 0 < a then .negInf else .posInf
  | .fin a, .fin b => .fin (a * b)

/-- JS division: `x / 0` is `±Infinity` for nonzero finite `x`, `0 / 0`
is `NaN`; the finite nonzero-divisor case is exact. -/
def JSNum.div : JSNum → JSNum → JSNum
  | .nan, _ => .nan
  | _, .nan => .nan
  | .posInf, .posInf => .nan
  | .posInf, .negInf => .nan
  | .negInf, .posInf => .nan
  | .negInf, .negInf => .nan
  | .posInf, .fin b => if 0 ≤ b then .posInf else .negInf
  | .negInf, .fin b => if 0 ≤ b then .negInf else .posInf
  | .fin _, .posInf => .fin 0
  | .fin _, .negInf => .fin 0
  | .fin a, .fin b =>
    if b = 0 then (if a = 0 then .nan else if 0 < a then .posInf else .negInf)
    else .fin (a / b)

/-- `Number.isFinite`. -/
def JSNum.isFiniteNum : JSNum → Bool
  | .fin _ => true
  | _ => false

/-!
## Lexer and parser for the sanitized arithmetic expressions

`MathTools.calculate` evaluates `Function('"use strict"; return (' +
sanitized + ')')()`.  By the time evaluation is reached the string
contains only digits, `+ - * / ( ) .` and spaces, so the reachable
JavaScript grammar is: decimal literals (strict mode: a multi-digit
literal may not start with `0`), unary `+`/`-`, binary `+ - * /` with the
usual precedence, and parentheses.  A string this grammar rejects makes
the engine throw a `SyntaxError` (or a `TypeError` for forms such as
`2(3)` that parse as a call); the model folds every such fault into
`Except.error` — the exact engine message is not modelled, only that the
`catch` branch is taken. -/
inductive MTok where
  | num (q : ℚ)
  | plus
  | minus
  | star
  | slash
  | lparen
  | rparen
deriving DecidableEq

/-- Numeric value of a decimal digit character. -/
def digitVal (c : Char) : ℕ := c.toNat - '0'.toNat

/-- Value of a digit string. -/
def digitsToNat (ds : List Char) : ℕ :=
  ds.foldl (fun acc c => 10 * acc + digitVal c) 0

/-- Lex one decimal literal (optionally with a fractional part); `none`
when the characters do not start a valid strict-mode literal (a lone `.`,
or a multi-digit literal with a leading `0`, which strict mode rejects as
a legacy octal form). -/
def lexNumber (cs : List Char) : Option (ℚ × List Char) :=
  let intPart := cs.takeWhile Char.isDigit
  let rest := cs.dropWhile Char.isDigit
  let octalLike : Bool := match intPart with
    | '0' :: _ :: _ => true
    | _ => false
  if octalLike then none
  else match rest with
    | '.' :: rest2 =>
      let fracPart := rest2.takeWhile Char.isDigit
      let rest3 := rest2.dropWhile Char.isDigit
      if intPart.isEmpty && fracPart.isEmpty then none
      else some ((digitsToNat intPart : ℚ)
        + (digitsToNat fracPart : ℚ) / ((10 : ℚ) ^ fracPart.length), rest3)
    | _ =>
      if intPart.isEmpty then none
      else some ((digitsToNat intPart : ℚ), rest)

/-- Tokenizer (fuel-indexed; every step consumes at least one character,
so `length + 1` fuel always suffices). -/
def lexTokens : ℕ → List Char → Except String (List MTok)
  | 0, _ => .error "SyntaxError"
  | _ + 1, [] => .ok []
  | fuel + 1, c :: cs =>
    if c = ' ' then lexTokens fuel cs
    else if c = '+' then (lexTokens fuel cs).map (MTok.plus :: ·)
    else if c = '-' then (lexTokens fuel cs).map (MTok.minus :: ·)
    else if c = '*' then (lexTokens fuel cs).map (MTok.star :: ·)
    else if c = '/' then (lexTokens fuel cs).map (MTok.slash :: ·)
    else if c = '(' then (lexTokens fuel cs).map (MTok.lparen :: ·)
    else if c = ')' then (lexTokens fuel cs).map (MTok.rparen :: ·)
    else if c.isDigit || c = '.' then
      match lexNumber (c :: cs) with
      | some (q, rest) => (lexTokens fuel rest).map (MTok.num q :: ·)
      | none => .error "SyntaxError"
    else .error "SyntaxError"

/-- Recursive-descent evaluating parser for the reachable grammar, one
structurally recursive function over a fuel bound.  `level` selects the
grammar production: 0 = AdditiveExpression, 1 = MultiplicativeExpression,
2 = UnaryExpression, 3 = PrimaryExpression.  `acc = some v` is the
continuation state of a left-associative binary chain at level 0 or 1
with accumulated value `v`. -/
def parseE : ℕ → ℕ → Option JSNum → List MTok → Except String (JSNum × List MTok)
  | 0, _, _, _ => .error "SyntaxError"
  | fuel + 1, 0, some acc, MTok.plus :: rest =>
    match parseE fuel 1 none rest with
    | .ok (v, rest2) => parseE fuel 0 (some (acc.add v)) rest2
    | .error e => .error e
  | fuel + 1, 0, some acc, MTok.minus :: rest =>
    match parseE fuel 1 none rest with
    | .ok (v, rest2) => parseE fuel 0 (some (acc.sub v)) rest2
    | .error e => .error e
  | _ + 1, 0, some acc, toks => .ok (acc, toks)
  | fuel + 1, 1, some acc, MTok.star :: rest =>
    match parseE fuel 2 none rest with
    | .ok (v, rest2) => parseE fuel 1 (some (acc.mul v)) rest2
    | .error e => .error e
  | fuel + 1, 1, some acc, MTok.slash :: rest =>
    match parseE fuel 2 none rest with
    | .ok (v, rest2) => parseE fuel 1 (some (acc.div v)) rest2
    | .error e => .error e
  | _ + 1, 1, some acc, toks => .ok (acc, toks)
  | fuel + 1, 0, none, toks =>
    match parseE fuel 1 none toks with
    | .ok (v, rest) => parseE fuel 0 (some v) rest
    | .error e => .error e
  | fuel + 1, 1, none, toks =>
    match parseE fuel 2 none toks with
    | .ok (v, rest) => parseE fuel 1 (some v) rest
    | .error e => .error e
  | fuel + 1, 2, none, toks =>
    match toks with
    | MTok.plus :: rest => parseE fuel 2 none rest
    | MTok.minus :: rest =>
      match parseE fuel 2 none rest with
      | .ok (v, rest2) => .ok (v.neg, rest2)
      | .error e => .error e
    | _ => parseE fuel 3 none toks
  | fuel + 1, 3, none, toks =>
    match toks with
    | MTok.num q :: rest => .ok (JSNum.fin q, rest)
    | MTok.lparen :: rest =>
      match parseE fuel 0 none rest with
      | .ok (v, MTok.rparen :: rest2) => .ok (v, rest2)
      | .ok _ => .error "SyntaxError"
      | .error e => .error e
    | _ => .error "SyntaxError"
  | _ + 1, _, _, _ => .error "SyntaxError"

/-- Evaluation of a sanitized expression string, i.e. the
`Function('"use strict"; return (' + sanitized + ')')()` step (the extra
parentheses the source wraps around the string do not change the value of
any string this grammar accepts). -/
def evalJsExpr (s : String) : Except String JSNum :=
  match lexTokens (s.length + 1) s.data with
  | .error e => .error e
  | .ok toks =>
    match parseE (8 * toks.length + 8) 0 none toks with
    | .ok (v, []) => .ok v
    | .ok (_, _ :: _) => .error "SyntaxError"
    | .error e => .error e

/-!
## MathTools.calculate (servers/math-tools/src/tools/math-tools.ts)
-/

/-- The character class of the sanitizing regex
`[^0-9+\-*/().\ ]` in `MathTools.calculate`. -/
def allowedChar (c : Char) : Bool :=
  c.isDigit || c = '+' || c = '-' || c = '*' || c = '/'
    || c = '(' || c = ')' || c = '.' || c = ' '

/-- `expression.replace(/[^0-9+\-*\/().\ ]/g, '')`: every character
outside the allowed class is removed. -/
def sanitizeExpr (s : String) : String :=
  String.mk (s.data.filter allowedChar)

/-- Membership in the operator class `[+\-*/]` of the
consecutive-operator regex. -/
def isOpChar (c : Char) : Bool :=
  c = '+' || c = '-' || c = '*' || c = '/'

/-- `/[+\-*\/]{2,}/.test(s)`: some two adjacent characters are both
operators. -/
def hasConsecOps : List Char → Bool
  | a :: b :: rest => (isOpChar a && isOpChar b) || hasConsecOps (b :: rest)
  | _ => false

namespace MathTools

/-- `MathTools.calculate`: sanitize-and-compare guard, empty-expression
guard, consecutive-operator guard, sandboxed evaluation, finiteness
check, then the success envelope.  (The whitespace stripping before the
consecutive-operator test is `filter (· ≠ ' ')` because a sanitized
string can contain no other whitespace.) -/
def calculate (expression : String) : ToolResult :=
  let sanitized := sanitizeExpr expression
  if sanitized ≠ expression then
    { success := false,
      error := some "Invalid characters in expression. Only numbers, +, -, *, /, (, ), and spaces are allowed." }
  else if sanitized.trim = "" then
    { success := false, error := some "Empty expression provided" }
  else if hasConsecOps (sanitized.data.filter (fun c => c ≠ ' ')) then
    { success := false,
      error := some "Calculation error: Malformed expression with consecutive operators" }
  else
    match evalJsExpr sanitized with
    | .ok (.fin q) =>
      { success := true,
        result := some (.obj
          [("expression", .str expression),
           ("sanitized", .str sanitized),
           ("value", .num q),
           ("type", .str (if q.den = 1 then "integer" else "decimal"))]),
        metadata := some (.obj
          [("originalExpression", .str expression),
           ("evaluatedAs", .str sanitized)]) }
    | .ok _ =>
      { success := false,
        error := some "Result is not a finite number (division by zero or invalid operation)" }
    | .error e =>
      { success := false, error := some ("Calculation error: " ++ e) }

end MathTools

/-!
## The math server's tool switch (servers/math-tools/src/index.ts)

Only `math_calculate` is exercised by a claim; the five remaining tool
functions enter the model as opaque handler parameters over the raw
argument map (each stands for the corresponding `MathTools.*` call
composed with its argument extraction).
-/

/-- The five math tool functions no claim inspects, as a handler bundle. -/
structure MathHandlers where
  compare : ArgMap → ToolResult
  parseNumbers : ArgMap → ToolResult
  formatNumber : ArgMap → ToolResult
  sanitizeNumber : ArgMap → ToolResult
  statistics : ArgMap → ToolResult

/-- The `switch (name)` of the math server's CallToolRequestSchema
handler.  `math_calculate` extracts `args.expression as string` and calls
`MathTools.calculate`; a non-string (or absent) `expression` makes
`expression.replace` throw a `TypeError` caught by the surrounding
`catch` (the engine's exact message is not modelled).  The `default:`
case throws `Unknown tool: <name>`. -/
def mathDispatch (h : MathHandlers) (name : String) (args : ArgMap) :
    Except String ToolResult :=
  if name = "math_calculate" then
    match lookupArg args "expression" with
    | some (.str s) => .ok (MathTools.calculate s)
    | _ => .error "expression.replace is not a function"
  else if name = "math_compare" then .ok (h.compare args)
  else if name = "math_parse_numbers" then .ok (h.parseNumbers args)
  else if name = "math_format_number" then .ok (h.formatNumber args)
  else if name = "math_sanitize_number" then .ok (h.sanitizeNumber args)
  else if name = "math_statistics" then .ok (h.statistics args)
  else .error ("Unknown tool: " ++ name)

/-- The tool names registered by the math server's ListTools handler, in
registration order. -/
def mathToolNames : List String :=
  ["math_calculate", "math_compare", "math_parse_numbers",
   "math_format_number", "math_sanitize_number", "math_statistics"]

/-- A throwaway handler used to instantiate opaque handler bundles in
concrete witnesses. -/
def trivialHandler : ArgMap → ToolResult := fun _ => { success := true }

/-- A `MathHandlers` bundle of throwaway handlers (witnesses only). -/
def trivialMathHandlers : MathHandlers :=
  ⟨trivialHandler, trivialHandler, trivialHandler, trivialHandler, trivialHandler⟩

/-!
## Calendar model for the date tools

`DateTools` uses the JavaScript `Date` built-in.  A `Date` is an epoch
time in milliseconds; `new Date(string)` is modelled for the ISO-8601
Date Time String Format with the UTC designator `Z` (the only format
ECMA-262 requires engines to parse, and the only one any claim
exercises); strings outside that fragment, and the engine's
implementation-defined fallback parsing, are modelled as invalid dates.
Civil-calendar conversion uses the standard days-from-civil algorithm.
-/

/-- Gregorian leap-year test. -/
def isLeapYear (y : ℤ) : Bool :=
  y % 4 = 0 && (y % 100 ≠ 0 || y % 400 = 0)

/-- Days in a month (1–12). -/
def daysInMonth (y : ℤ) : ℕ → ℕ
  | 1 => 31
  | 2 => if isLeapYear y then 29 else 28
  | 3 => 31
  | 4 => 30
  | 5 => 31
  | 6 => 30
  | 7 => 31
  | 8 => 31
  | 9 => 30
  | 10 => 31
  | 11 => 30
  | 12 => 31
  | _ => 0

/-- Days since 1970-01-01 of the civil date `y-m-d`. -/
def daysFromCivil (y : ℤ) (m d : ℕ) : ℤ :=
  let yAdj : ℤ := if m ≤ 2 then y - 1 else y
  let era : ℤ := Int.fdiv yAdj 400
  let yoe : ℕ := (yAdj - era * 400).toNat
  let mp : ℕ := if m ≤ 2 then m + 9 else m - 3
  let doy : ℕ := (153 * mp + 2) / 5 + d - 1
  let doe : ℕ := yoe * 365 + yoe / 4 - yoe / 100 + doy
  era * 146097 + (doe : ℤ) - 719468

/-- Civil date `(y, m, d)` of a days-since-1970 count. -/
def civilFromDays (z : ℤ) : ℤ × ℕ × ℕ :=
  let z2 : ℤ := z + 719468
  let era : ℤ := Int.fdiv z2 146097
  let doe : ℕ := (z2 - era * 146097).toNat
  let yoe : ℕ := (doe - doe / 1460 + doe / 36524 - doe / 146096) / 365
  let doy : ℕ := doe - (365 * yoe + yoe / 4 - yoe / 100)
  let mp : ℕ := (5 * doy + 2) / 153
  let d : ℕ := doy - (153 * mp + 2) / 5 + 1
  let m : ℕ := if mp < 10 then mp + 3 else mp - 9
  (era * 400 + (yoe : ℤ) + (if m ≤ 2 then 1 else 0), m, d)

/-- Epoch milliseconds of validated UTC components (`none` when a
component is out of range, which `new Date(...)` reports as an invalid
date). -/
def mkUtcMs (y m d h mi s ms : ℕ) : Option ℤ :=
  if 1 ≤ m && m ≤ 12 && 1 ≤ d && d ≤ daysInMonth (y : ℤ) m
      && h ≤ 23 && mi ≤ 59 && s ≤ 59 then
    some (daysFromCivil (y : ℤ) m d * 86400000
      + (h : ℤ) * 3600000 + (mi : ℤ) * 60000 + (s : ℤ) * 1000 + (ms : ℤ))
  else none

/-- Two-digit field value, `none` unless both characters are digits. -/
def digit2 (a b : Char) : Option ℕ :=
  if a.isDigit && b.isDigit then some (10 * digitVal a + digitVal b) else none

/-- Four-digit field value. -/
def digit4 (a b c d : Char) : Option ℕ :=
  if a.isDigit && b.isDigit && c.isDigit && d.isDigit then
    some (1000 * digitVal a + 100 * digitVal b + 10 * digitVal c + digitVal d)
  else none

/-- Three-digit field value. -/
def digit3 (a b c : Char) : Option ℕ :=
  if a.isDigit && b.isDigit && c.isDigit then
    some (100 * digitVal a + 10 * digitVal b + digitVal c)
  else none

/-- Model of `Date.parse` on the ISO-8601 UTC fragment (see the section
comment): `YYYY-MM-DD`, `YYYY-MM-DDTHH:MMZ`, `YYYY-MM-DDTHH:MM:SSZ`, and
`YYYY-MM-DDTHH:MM:SS.sssZ`. -/
def parseIsoUtc (str : String) : Option ℤ :=
  match str.data with
  | [y1, y2, y3, y4, '-', m1, m2, '-', d1, d2] =>
    match digit4 y1 y2 y3 y4, digit2 m1 m2, digit2 d1 d2 with
    | some y, some m, some d => mkUtcMs y m d 0 0 0 0
    | _, _, _ => none
  | [y1, y2, y3, y4, '-', m1, m2, '-', d1, d2, 'T', h1, h2, ':', i1, i2, 'Z'] =>
    match digit4 y1 y2 y3 y4, digit2 m1 m2, digit2 d1 d2, digit2 h1 h2, digit2 i1 i2 with
    | some y, some m, some d, some h, some mi => mkUtcMs y m d h mi 0 0
    | _, _, _, _, _ => none
  | [y1, y2, y3, y4, '-', m1, m2, '-', d1, d2, 'T', h1, h2, ':', i1, i2, ':', s1, s2, 'Z'] =>
    match digit4 y1 y2 y3 y4, digit2 m1 m2, digit2 d1 d2, digit2 h1 h2,
        digit2 i1 i2, digit2 s1 s2 with
    | some y, some m, some d, some h, some mi, some s => mkUtcMs y m d h mi s 0
    | _, _, _, _, _, _ => none
  | [y1, y2, y3, y4, '-', m1, m2, '-', d1, d2, 'T', h1, h2, ':', i1, i2, ':', s1, s2,
      '.', f1, f2, f3, 'Z'] =>
    match digit4 y1 y2 y3 y4, digit2 m1 m2, digit2 d1 d2, digit2 h1 h2,
        digit2 i1 i2, digit2 s1 s2, digit3 f1 f2 f3 with
    | some y, some m, some d, some h, some mi, some s, some f => mkUtcMs y m d h mi s f
    | _, _, _, _, _, _, _ => none
  | _ => none

/-- Left-pad a number with zeros to a fixed width. -/
def padNum (width n : ℕ) : String :=
  let s := toString n
  String.mk (List.replicate (width - s.length) '0') ++ s

/-- Model of `Date.prototype.toISOString` (years 0–9999, the range every
claim input lies in; JS switches to an expanded year form outside it). -/
def toIsoString (t : ℤ) : String :=
  let days := Int.fdiv t 86400000
  let msod := (t - days * 86400000).toNat
  match civilFromDays days with
  | (y, m, d) =>
    padNum 4 y.toNat ++ "-" ++ padNum 2 m ++ "-" ++ padNum 2 d
      ++ "T" ++ padNum 2 (msod / 3600000) ++ ":" ++ padNum 2 (msod % 3600000 / 60000)
      ++ ":" ++ padNum 2 (msod % 60000 / 1000) ++ "." ++ padNum 3 (msod % 1000) ++ "Z"

/-- A `string | number | Date` argument of the date tools (an absent
argument behaves as `undefined`, for which `new Date(undefined)` is an
invalid date). -/
inductive DateInput where
  | str (s : String)
  | num (q : ℚ)
  | undefined

/-- Model of `new Date(x).getTime()`: `none` is `NaN` (invalid date); a
numeric argument is truncated toward zero and range-checked as ECMA-262
prescribes. -/
def toEpochMs : DateInput → Option ℤ
  | .str s => parseIsoUtc s
  | .num q =>
    if |q| ≤ 8640000000000000 then
      some (if q < 0 then Int.ceil q else Int.floor q)
    else none
  | .undefined => none

/-!
## DateTools.compare (date-tools tool library)
-/

/-- The `options` argument of `DateTools.compare`; `none` fields model
absent properties (the `{...options}` spread keeps the default then). -/
structure CompareOptions where
  precision : Option String := none
  absolute : Option Bool := none

/-- `formatDuration`: first unit whose floored count is at least 1.  The
unit sizes are the source's `1000 * 60 * 60 * 24 * 365.25` and
`... * 30.44` products. -/
def formatDuration (ms : ℚ) : String :=
  formatDurationGo ms
    [("year", 1000 * 60 * 60 * 24 * (365.25 : ℚ)),
     ("month", 1000 * 60 * 60 * 24 * (30.44 : ℚ)),
     ("week", 1000 * 60 * 60 * 24 * 7),
     ("day", 1000 * 60 * 60 * 24),
     ("hour", 1000 * 60 * 60),
     ("minute", 1000 * 60),
     ("second", 1000)]
where
  /-- The `for (const unit of units)` loop of `formatDuration`. -/
  formatDurationGo (ms : ℚ) : List (String × ℚ) → String
    | [] => "0 seconds"
    | (label, unitMs) :: rest =>
      let value : ℤ := Int.floor (ms / unitMs)
      if 1 ≤ value then
        toString value ++ " " ++ label ++ (if 1 < value then "s" else "")
      else formatDurationGo ms rest

/-- The `differences[opts.precision]` lookup of `DateTools.compare`
(an unknown precision key reads `undefined`, which `JSON.stringify`
then drops). -/
def diffByPrecision (d : ℚ) : String → Option ℚ
  | "milliseconds" => some d
  | "seconds" => some (d / 1000)
  | "minutes" => some (d / (1000 * 60))
  | "hours" => some (d / (1000 * 60 * 60))
  | "days" => some (d / (1000 * 60 * 60 * 24))
  | "weeks" => some (d / (1000 * 60 * 60 * 24 * 7))
  | "months" => some (d / (1000 * 60 * 60 * 24 * (30.44 : ℚ)))
  | "years" => some (d / (1000 * 60 * 60 * 24 * (365.25 : ℚ)))
  | _ => none

namespace DateTools

/-- `DateTools.compare`: parse both dates (invalid → domain error),
difference in milliseconds, comparison flags, per-unit differences,
human-readable summary.  `Date` values inside the result are their
`toISOString` serializations (what `JSON.stringify` emits for a `Date`). -/
def compare (date1 date2 : DateInput) (options : Option CompareOptions) : ToolResult :=
  let precision := (options.bind (·.precision)).getD "milliseconds"
  let absolute := (options.bind (·.absolute)).getD false
  match toEpochMs date1, toEpochMs date2 with
  | some t1, some t2 =>
    let diff : ℤ := t2 - t1
    let absDiff : ℤ := |diff|
    let d : ℚ := if absolute then (absDiff : ℚ) else (diff : ℚ)
    let hr := formatDuration (absDiff : ℚ)
    { success := true,
      result := some (.obj
        ([("date1", .str (toIsoString t1)),
          ("date2", .str (toIsoString t2)),
          ("comparison", .obj
            [("earlier", .str (toIsoString (if 0 < diff then t1 else t2))),
             ("later", .str (toIsoString (if 0 < diff then t2 else t1))),
             ("equal", .bool (diff = 0)),
             ("date1IsEarlier", .bool (0 < diff)),
             ("date2IsEarlier", .bool (diff < 0))]),
          ("differences", .obj
            [("milliseconds", .num d),
             ("seconds", .num (d / 1000)),
             ("minutes", .num (d / (1000 * 60))),
             ("hours", .num (d / (1000 * 60 * 60))),
             ("days", .num (d / (1000 * 60 * 60 * 24))),
             ("weeks", .num (d / (1000 * 60 * 60 * 24 * 7))),
             ("months", .num (d / (1000 * 60 * 60 * 24 * (30.44 : ℚ)))),
             ("years", .num (d / (1000 * 60 * 60 * 24 * (365.25 : ℚ))))])]
        ++ (match diffByPrecision d precision with
            | some v => [("primaryDifference", JVal.num v)]
            | none => [])
        ++ [("humanReadable", .str
              (if diff = 0 then "Same time"
               else if 0 < diff then "Date 2 is " ++ hr ++ " after Date 1"
               else "Date 2 is " ++ hr ++ " before Date 1")),
            ("rawDifference", .num (diff : ℚ))])),
      metadata := some (.obj
        [("precision", .str precision),
         ("absolute", .bool absolute),
         ("unit", .str precision)]) }
  | _, _ => { success := false, error := some "One or both dates are invalid" }

end DateTools

/-!
## The date server's tool switch (date-tools index.ts)
-/

/-- The six date tool functions the dispatch-layer properties treat as
opaque, as a handler bundle (`DateTools.info` itself is embedded further
below, with its wall-clock input explicit, for the determinism
analysis). -/
structure DateHandlers where
  parse : ArgMap → ToolResult
  format : ArgMap → ToolResult
  convert : ArgMap → ToolResult
  arithmetic : ArgMap → ToolResult
  info : ArgMap → ToolResult
  validate : ArgMap → ToolResult

/-- `args.date1 as string | number` for the date tools (other JSON types
are not exercised by any claim and are modelled as `undefined`). -/
def getDateArg (args : ArgMap) (k : String) : DateInput :=
  match lookupArg args k with
  | some (.str s) => .str s
  | some (.num q) => .num q
  | _ => .undefined

/-- `args.options as any` for `date_compare` (a non-object spread
contributes no `precision`/`absolute` properties). -/
def getCompareOptions (args : ArgMap) : Option CompareOptions :=
  match lookupArg args "options" with
  | some (.obj fs) =>
    some
      { precision :=
          match (fs.find? (fun p => p.1 == "precision")).map (fun p => p.2) with
          | some (JVal.str p) => some p
          | _ => none,
        absolute :=
          match (fs.find? (fun p => p.1 == "absolute")).map (fun p => p.2) with
          | some (JVal.bool b) => some b
          | _ => none }
  | _ => none

/-- The `switch (name)` of the date server's CallToolRequestSchema
handler; `date_compare` is embedded, the other branches stand for the
corresponding `DateTools.*` calls. -/
def dateDispatch (h : DateHandlers) (name : String) (args : ArgMap) :
    Except String ToolResult :=
  if name = "date_parse" then .ok (h.parse args)
  else if name = "date_format" then .ok (h.format args)
  else if name = "date_convert" then .ok (h.convert args)
  else if name = "date_arithmetic" then .ok (h.arithmetic args)
  else if name = "date_compare" then
    .ok (DateTools.compare (getDateArg args "date1") (getDateArg args "date2")
      (getCompareOptions args))
  else if name = "date_info" then .ok (h.info args)
  else if name = "date_validate" then .ok (h.validate args)
  else .error ("Unknown tool: " ++ name)

/-- A `DateHandlers` bundle of throwaway handlers (witnesses only). -/
def trivialDateHandlers : DateHandlers :=
  ⟨trivialHandler, trivialHandler, trivialHandler, trivialHandler,
   trivialHandler, trivialHandler⟩

/-!
## DateTools.info (date-tools tool library)

`DateTools.info` reads the current wall clock (`const now = new Date()`)
and embeds clock-derived values inside `result` (`relative.isInPast`,
`isInFuture`, `isToday`, `age`, `description`) and `metadata`
(`analyzedAt`).  The clock is the `now : ℤ` parameter of the model — the
ambient state a JavaScript invocation reads implicitly — so two
invocations of the model at different instants are two runs of the source
function at different times.  The `toLocaleString`-family output and the
time-zone name are implementation-defined by ECMA-262; they (and the
local-time getters and constructor, which then coincide with the UTC
ones) are modelled for the servers' runtime pinned to the UTC time zone
with the `en-US` default locale.
-/

/-- Abbreviated weekday names of the ECMA-262 `DateString` format. -/
def weekdayAbbrevs : List String := ["Sun", "Mon", "Tue", "Wed", "Thu", "Fri", "Sat"]

/-- Full weekday names (the `weekdayName` lookup list in `info`). -/
def weekdayFullNames : List String :=
  ["Sunday", "Monday", "Tuesday", "Wednesday", "Thursday", "Friday", "Saturday"]

/-- Abbreviated month names of the ECMA-262 `DateString` format. -/
def monthAbbrevs : List String :=
  ["Jan", "Feb", "Mar", "Apr", "May", "Jun", "Jul", "Aug", "Sep", "Oct", "Nov", "Dec"]

/-- Full month names (the `monthName` lookup list in `info`). -/
def monthFullNames : List String :=
  ["January", "February", "March", "April", "May", "June",
   "July", "August", "September", "October", "November", "December"]

/-- Days-since-1970 count of an epoch-milliseconds time. -/
def epochDays (t : ℤ) : ℤ := Int.fdiv t 86400000

/-- Milliseconds past UTC midnight of an epoch-milliseconds time. -/
def msOfDay (t : ℤ) : ℕ := (t - epochDays t * 86400000).toNat

/-- Weekday (0 = Sunday) of a days-since-1970 count (1970-01-01 was a
Thursday). -/
def weekdayOfDays (days : ℤ) : ℕ := (Int.emod (days + 4) 7).toNat

/-- Model of `Date.prototype.toUTCString`
(for example `Thu, 15 Jun 2023 10:00:00 GMT`). -/
def toUTCStringJs (t : ℤ) : String :=
  match civilFromDays (epochDays t) with
  | (y, m, d) =>
    weekdayAbbrevs.getD (weekdayOfDays (epochDays t)) "" ++ ", " ++ padNum 2 d ++ " "
      ++ monthAbbrevs.getD (m - 1) "" ++ " " ++ padNum 4 y.toNat ++ " "
      ++ padNum 2 (msOfDay t / 3600000) ++ ":" ++ padNum 2 (msOfDay t % 3600000 / 60000)
      ++ ":" ++ padNum 2 (msOfDay t % 60000 / 1000) ++ " GMT"

/-- Model of `Date.prototype.toDateString` in a UTC environment
(for example `Thu Jun 15 2023`). -/
def toDateStringJs (t : ℤ) : String :=
  match civilFromDays (epochDays t) with
  | (y, m, d) =>
    weekdayAbbrevs.getD (weekdayOfDays (epochDays t)) "" ++ " "
      ++ monthAbbrevs.getD (m - 1) "" ++ " " ++ padNum 2 d ++ " " ++ padNum 4 y.toNat

/-- Model of `Date.prototype.toTimeString` in a UTC environment
(for example `10:00:00 GMT+0000 (Coordinated Universal Time)`). -/
def toTimeStringJs (t : ℤ) : String :=
  padNum 2 (msOfDay t / 3600000) ++ ":" ++ padNum 2 (msOfDay t % 3600000 / 60000)
    ++ ":" ++ padNum 2 (msOfDay t % 60000 / 1000)
    ++ " GMT+0000 (Coordinated Universal Time)"

/-- Hour on the 12-hour clock. -/
def hour12 (h : ℕ) : ℕ := if h % 12 = 0 then 12 else h % 12

/-- Model of `toLocaleDateString()` for the `en-US` default locale
(for example `6/15/2023`). -/
def toLocaleDateStringJs (t : ℤ) : String :=
  match civilFromDays (epochDays t) with
  | (y, m, d) => toString m ++ "/" ++ toString d ++ "/" ++ toString y.toNat

/-- Model of `toLocaleString()` for the `en-US` default locale in a UTC
environment (for example `6/15/2023, 10:00:00 AM`). -/
def toLocaleStringJs (t : ℤ) : String :=
  toLocaleDateStringJs t ++ ", " ++ toString (hour12 (msOfDay t / 3600000))
    ++ ":" ++ padNum 2 (msOfDay t % 3600000 / 60000)
    ++ ":" ++ padNum 2 (msOfDay t % 60000 / 1000)
    ++ " " ++ (if msOfDay t / 3600000 < 12 then "AM" else "PM")

/-- Model of the `long` format
`toLocaleDateString('en-US', { weekday: 'long', year: 'numeric', month:
'long', day: 'numeric' })` (for example `Thursday, June 15, 2023`). -/
def toLongDateStringJs (t : ℤ) : String :=
  match civilFromDays (epochDays t) with
  | (y, m, d) =>
    weekdayFullNames.getD (weekdayOfDays (epochDays t)) "" ++ ", "
      ++ monthFullNames.getD (m - 1) "" ++ " " ++ toString d ++ ", " ++ toString y.toNat

namespace DateTools

/-- `DateTools.info`: invalid-date guard, then date components, calendar
facts, clock-relative facts, and formatted renderings.  `now` is the
clock read by `const now = new Date()` at invocation time.  The
`startOfYear` local-time construction `new Date(getFullYear(), 0, 1)`,
the local getters `getDay`/`getMonth`/`getFullYear`, and `toDateString`
coincide with their UTC counterparts in the modelled UTC environment.
`Math.floor`/`Math.ceil` act on exact rationals here; the leap-year test
is the source's `% 4 / % 100 / % 400` formula (equal to `isLeapYear` on
the positive years every parseable date has).  The model is total, so
the source's unreachable `catch` branch has no counterpart. -/
def info (date : DateInput) (now : ℤ) : ToolResult :=
  match toEpochMs date with
  | none => { success := false, error := some "Invalid date provided" }
  | some t =>
    match civilFromDays (epochDays t) with
    | (y, m, d) =>
      let startOfYear : ℤ := daysFromCivil y 1 1 * 86400000
      let dayOfYear : ℤ := Int.floor (((t - startOfYear : ℤ) : ℚ) / (1000 * 60 * 60 * 24)) + 1
      let startOfYearWeekday : ℕ := weekdayOfDays (daysFromCivil y 1 1)
      let weekOfYear : ℤ := Int.ceil (((dayOfYear + startOfYearWeekday : ℤ) : ℚ) / 7)
      let leap := isLeapYear y
      let quarter : ℤ := Int.ceil ((m : ℚ) / 3)
      let dim := daysInMonth y m
      let ageMs : ℤ := now - t
      let ageAbs : ℤ := |ageMs|
      let age := formatDuration (ageAbs : ℚ)
      { success := true,
        result := some (.obj
          [("date", .str (toIsoString t)),
           ("timestamp", .num (t : ℚ)),
           ("components", .obj
             [("year", .num (y : ℚ)),
              ("month", .num (m : ℚ)),
              ("day", .num (d : ℚ)),
              ("hour", .num ((msOfDay t / 3600000 : ℕ) : ℚ)),
              ("minute", .num ((msOfDay t % 3600000 / 60000 : ℕ) : ℚ)),
              ("second", .num ((msOfDay t % 60000 / 1000 : ℕ) : ℚ)),
              ("millisecond", .num ((msOfDay t % 1000 : ℕ) : ℚ)),
              ("weekday", .num ((weekdayOfDays (epochDays t) : ℕ) : ℚ)),
              ("weekdayName", .str (weekdayFullNames.getD (weekdayOfDays (epochDays t)) "")),
              ("monthName", .str (monthFullNames.getD (m - 1) ""))]),
           ("calendar", .obj
             [("dayOfYear", .num (dayOfYear : ℚ)),
              ("weekOfYear", .num (weekOfYear : ℚ)),
              ("quarter", .num (quarter : ℚ)),
              ("daysInMonth", .num (dim : ℚ)),
              ("isLeapYear", .bool leap),
              ("daysInYear", .num (if leap then 366 else 365))]),
           ("relative", .obj
             [("isInPast", .bool (t < now)),
              ("isInFuture", .bool (now < t)),
              ("isToday", .bool (toDateStringJs t = toDateStringJs now)),
              ("age", .str (if ageMs < 0 then age ++ " in the future" else age ++ " ago")),
              ("description", .str
                (if ageMs < 0 then "Future date"
                 else if ageMs = 0 then "Now" else "Past date"))]),
           ("formats", .obj
             [("iso", .str (toIsoString t)),
              ("utc", .str (toUTCStringJs t)),
              ("local", .str (toLocaleStringJs t)),
              ("date", .str (toDateStringJs t)),
              ("time", .str (toTimeStringJs t)),
              ("short", .str (toLocaleDateStringJs t)),
              ("long", .str (toLongDateStringJs t))])]),
        metadata := some (.obj
          [("analyzedAt", .str (toIsoString now)),
           ("timezone", .str "UTC")]) }

end DateTools

/-!
## RegExp model and RegexTools.validate (regex-tools tool library)

`new RegExp(pattern, flags)` is modelled by a flag check plus a
syntactic scan of the pattern (escapes, groups, character classes,
quantifier placement, paren balance).  The scan is a model of the
ECMAScript RegExp grammar on the fragment the claims exercise and is
conservative on exotic constructs; the engine's error message text is
summarized, not reproduced.  `source` and `flags` of a compiled RegExp
follow ECMA-262: `source` is the pattern with unescaped `/` escaped (or
`(?:)` for the empty pattern), `flags` lists the present flags in the
fixed order `d g i m s u v y`.
-/

/-- The valid RegExp flag characters, in the order the `flags` getter
emits them. -/
def jsRegexFlagChars : List Char := ['d', 'g', 'i', 'm', 's', 'u', 'v', 'y']

/-- No character occurs twice. -/
def nodups : List Char → Bool
  | [] => true
  | c :: cs => !cs.contains c && nodups cs

/-- Flag-string validity: known flags, no repeats, not both `u` and `v`. -/
def flagsOk (flags : String) : Bool :=
  flags.data.all (fun c => jsRegexFlagChars.contains c)
    && nodups flags.data
    && !(flags.data.contains 'u' && flags.data.contains 'v')

/-- The `flags` getter of a compiled RegExp. -/
def canonicalFlags (flags : String) : String :=
  String.mk (jsRegexFlagChars.filter (fun c => flags.data.contains c))

/-- Scan past a bracketed character class; `none` when it never closes. -/
def classRest : ℕ → List Char → Option (List Char)
  | 0, _ => none
  | _ + 1, [] => none
  | fuel + 1, c :: cs =>
    if c = '\\' then
      match cs with
      | [] => none
      | _ :: cs2 => classRest fuel cs2
    else if c = ']' then some cs
    else classRest fuel cs

/-- Syntactic scan of a pattern.  `depth` counts open groups; `prev` is 0
after nothing quantifiable (start, `(`, `|`, an anchor), 1 after a
quantifiable atom, 2 after a greedy quantifier (where only a lazy `?`
may follow). -/
def regexScan : ℕ → List Char → ℕ → ℕ → Bool
  | 0, _, _, _ => false
  | _ + 1, [], depth, _ => depth = 0
  | fuel + 1, c :: cs, depth, prev =>
    if c = '\\' then
      match cs with
      | [] => false
      | _ :: cs2 => regexScan fuel cs2 depth 1
    else if c = '(' then regexScan fuel cs (depth + 1) 0
    else if c = ')' then decide (0 < depth) && regexScan fuel cs (depth - 1) 1
    else if c = '[' then
      match classRest (cs.length + 1) cs with
      | some rest => regexScan fuel rest depth 1
      | none => false
    else if c = '*' || c = '+' then decide (prev = 1) && regexScan fuel cs depth 2
    else if c = '?' then
      (decide (prev = 1) || decide (prev = 2))
        && regexScan fuel cs depth (if prev = 1 then 2 else 0)
    else if c = '|' then regexScan fuel cs depth 0
    else if c = '^' || c = '$' then regexScan fuel cs depth 0
    else regexScan fuel cs depth 1

/-- Pattern validity for `new RegExp`. -/
def regexSyntaxOk (pattern : String) : Bool :=
  regexScan (pattern.length + 1) pattern.data 0 0

/-- Escape the unescaped `/` occurrences of a pattern (the `source`
getter's EscapeRegExpPattern); the `Bool` is "previous character was an
unconsumed backslash". -/
def escapeSlashes : Bool → List Char → List Char
  | _, [] => []
  | false, c :: cs =>
    if c = '\\' then c :: escapeSlashes true cs
    else if c = '/' then '\\' :: '/' :: escapeSlashes false cs
    else c :: escapeSlashes false cs
  | true, c :: cs => c :: escapeSlashes false cs

/-- The `source` getter of a compiled RegExp. -/
def regexSource (pattern : String) : String :=
  if pattern = "" then "(?:)" else String.mk (escapeSlashes false pattern.data)

/-- The observable pieces of a compiled RegExp a claim inspects. -/
structure RegexCompiled where
  source : String
  flags : String

/-- Model of `new RegExp(pattern, flags)`: `.error` is the thrown
`SyntaxError` (summarized message). -/
def jsRegExpCompile (pattern : String) (flags : String) : Except String RegexCompiled :=
  if !flagsOk flags then
    .error ("Invalid flags supplied to RegExp constructor '" ++ flags ++ "'")
  else if !regexSyntaxOk pattern then
    .error ("Invalid regular expression: /" ++ pattern ++ "/")
  else .ok { source := regexSource pattern, flags := canonicalFlags flags }

namespace RegexTools

/-- `RegexTools.validate`: try to compile; both outcomes are reported
with `success: true` — an invalid pattern is `result.isValid = false`
with the failure message in `result.error`, never a top-level failure. -/
def validate (pattern : String) (flags : Option String) : ToolResult :=
  let flagsStr := flags.getD ""
  match jsRegExpCompile pattern flagsStr with
  | .ok compiled =>
    { success := true,
      result := some (.obj
        [("isValid", .bool true),
         ("pattern", .str pattern),
         ("flags", .str flagsStr),
         ("source", .str compiled.source),
         ("compiledFlags", .str compiled.flags)]),
      metadata := some (.obj [("patternLength", .num (pattern.length : ℚ))]) }
  | .error msg =>
    { success := true,
      result := some (.obj
        [("isValid", .bool false),
         ("pattern", .str pattern),
         ("flags", .str flagsStr),
         ("error", .str msg)]),
      metadata := some (.obj [("patternLength", .num (pattern.length : ℚ))]) }

end RegexTools

/-!
## The regex server's tool switch (servers/regex-tools/src/index.ts)
-/

/-- The ten regex tool functions no claim inspects, as a handler bundle. -/
structure RegexHandlers where
  matchCount : ArgMap → ToolResult
  matchAll : ArgMap → ToolResult
  extract : ArgMap → ToolResult
  replace : ArgMap → ToolResult
  split : ArgMap → ToolResult
  extractJson : ArgMap → ToolResult
  findGroups : ArgMap → ToolResult
  tokenize : ArgMap → ToolResult
  normalizeWhitespace : ArgMap → ToolResult
  redact : ArgMap → ToolResult

/-- `args.k as string` (a non-string value is not exercised by any claim
and is modelled as the empty string). -/
def getStringArg (args : ArgMap) (k : String) : String :=
  match lookupArg args k with
  | some (.str s) => s
  | _ => ""

/-- The `switch (name)` of the regex server's CallToolRequestSchema
handler; `regex_validate` (which receives `(args.flags as string) || ""`)
is embedded, the other branches stand for the corresponding
`RegexTools.*` calls. -/
def regexDispatch (h : RegexHandlers) (name : String) (args : ArgMap) :
    Except String ToolResult :=
  if name = "regex_match_count" then .ok (h.matchCount args)
  else if name = "regex_match" then .ok (h.matchAll args)
  else if name = "regex_extract" then .ok (h.extract args)
  else if name = "regex_replace" then .ok (h.replace args)
  else if name = "regex_split" then .ok (h.split args)
  else if name = "regex_extract_json" then .ok (h.extractJson args)
  else if name = "regex_find_groups" then .ok (h.findGroups args)
  else if name = "regex_validate" then
    .ok (RegexTools.validate (getStringArg args "pattern") (some (getStringArg args "flags")))
  else if name = "regex_tokenize" then .ok (h.tokenize args)
  else if name = "regex_normalize_whitespace" then .ok (h.normalizeWhitespace args)
  else if name = "regex_redact" then .ok (h.redact args)
  else .error ("Unknown tool: " ++ name)

/-- A `RegexHandlers` bundle of throwaway handlers (witnesses only). -/
def trivialRegexHandlers : RegexHandlers :=
  ⟨trivialHandler, trivialHandler, trivialHandler, trivialHandler, trivialHandler,
   trivialHandler, trivialHandler, trivialHandler, trivialHandler, trivialHandler⟩

/-!
## HTTP transport configuration (runOnHttp of each server)

Each server builds a `StreamableHTTPServerTransport` from environment
configuration: `ALLOWED_ORIGINS` (default `"*"`) and `ALLOWED_HOSTS`
(default `"127.0.0.1,localhost"`), both split on commas, trimmed, and
filtered of empty entries; a wildcard in the origins list is passed to
the SDK as `undefined` (no origin restriction).  The servers differ in
the `enableDnsRebindingProtection` option: math and string pass `true`;
regex passes `false` with the source comment "Temporarily disable for
debugging"; date omits the option, and the SDK documents the omitted
option as defaulting to `false` (disabled, for backwards compatibility).
-/

/-- `env.split(",").map(s => s.trim()).filter(Boolean)`. -/
def parseEnvList (s : String) : List String :=
  ((s.splitOn ",").map String.trim).filter (fun x => x ≠ "")

/-- The `StreamableHTTPServerTransport` options a request-admission
decision depends on. -/
structure HttpTransportConfig where
  enableDnsRebindingProtection : Bool
  allowedHosts : List String
  allowedOrigins : Option (List String)

/-- Shared construction of the transport options from the two
environment variables (`none` = variable unset). -/
def mkTransportConfig (dnsProtection : Bool) (originsEnv hostsEnv : Option String) :
    HttpTransportConfig :=
  let origins := parseEnvList (originsEnv.getD "*")
  let hosts := parseEnvList (hostsEnv.getD "127.0.0.1,localhost")
  { enableDnsRebindingProtection := dnsProtection,
    allowedHosts := hosts,
    allowedOrigins := if origins.contains "*" then none else some origins }

/-- math-tools server transport options (`enableDnsRebindingProtection: true`). -/
def mathTransportConfig (originsEnv hostsEnv : Option String) : HttpTransportConfig :=
  mkTransportConfig true originsEnv hostsEnv

/-- string-tools server transport options (`enableDnsRebindingProtection: true`). -/
def stringTransportConfig (originsEnv hostsEnv : Option String) : HttpTransportConfig :=
  mkTransportConfig true originsEnv hostsEnv

/-- regex-tools server transport options (`enableDnsRebindingProtection:
false, // Temporarily disable for debugging`). -/
def regexTransportConfig (originsEnv hostsEnv : Option String) : HttpTransportConfig :=
  mkTransportConfig false originsEnv hostsEnv

/-- date-tools server transport options (the option is commented out in
the source; the SDK default is disabled). -/
def dateTransportConfig (originsEnv hostsEnv : Option String) : HttpTransportConfig :=
  mkTransportConfig false originsEnv hostsEnv

/-- Modelled from the spec: the SDK's transport-boundary admission check
(the `@modelcontextprotocol/sdk` `StreamableHTTPServerTransport` is a
dependency, not part of this repository).  Per the spec's §4.5/§7:
requests whose `Host` is not in the configured allow-list, or whose
`Origin` is not in the configured allow-list when that list is not the
wildcard, are rejected before reaching the Protocol Session — and this
validation is only performed when DNS-rebinding protection is enabled;
with it disabled every request is forwarded.  `true` means the request
reaches the Protocol Session. -/
def transportAcceptsRequest (cfg : HttpTransportConfig)
    (host : String) (origin : Option String) : Bool :=
  if !cfg.enableDnsRebindingProtection then true
  else
    cfg.allowedHosts.contains host
      && (match cfg.allowedOrigins, origin with
          | some os, some o => os.contains o
          | _, _ => true)

/-!
## Claim theorems
-/

/-- C1: for every registered tool, a ToolResult the tool's own logic
produces (for example `math_calculate` rejecting the expression `2++3`)
is delivered with the protocol-level `isError` flag unset and
`success:false` inside the serialized ToolResult, whereas calling an
unknown tool name yields `isError:true`.  The first conjunct covers every
known-tool dispatch outcome, the second evaluates the `2++3` example,
the third covers every unknown name. -/
theorem mcp_c1_dispatch_domain_distinction :
    (∀ (h : MathHandlers) (name : String) (args : ArgMap) (r : ToolResult),
      mathDispatch h name args = .ok r →
        serverHandleCallTool (mathDispatch h) ⟨name, some args⟩
          = { content := [{ payload := r }], isError := none })
    ∧ (∀ h : MathHandlers,
      (MathTools.calculate "2++3").success = false
      ∧ serverHandleCallTool (mathDispatch h)
            ⟨"math_calculate", some [("expression", JVal.str "2++3")]⟩
          = { content := [{ payload := MathTools.calculate "2++3" }], isError := none })
    ∧ (∀ (h : MathHandlers) (name : String) (args : ArgMap),
      name ∉ mathToolNames →
        (serverHandleCallTool (mathDispatch h) ⟨name, some args⟩).isError = some true) := by
  refine ⟨?_, ?_, ?_⟩
  · intro h name args r hok
    simp [serverHandleCallTool, hok]
  · intro h
    exact ⟨by with_unfolding_all rfl, by with_unfolding_all rfl⟩
  · intro h name args hname
    simp only [mathToolNames, List.mem_cons, List.not_mem_nil, or_false, not_or] at hname
    obtain ⟨h1, h2, h3, h4, h5, h6⟩ := hname
    simp [serverHandleCallTool, mathDispatch, h1, h2, h3, h4, h5, h6]

/-- Witness for C1 at concrete inputs: the `2++3` domain error is
delivered without `isError`, and an unknown name gets `isError:true`. -/
theorem mcp_c1_witness :
    serverHandleCallTool (mathDispatch trivialMathHandlers)
        ⟨"math_calculate", some [("expression", JVal.str "2++3")]⟩
      = { content := [{ payload := MathTools.calculate "2++3" }], isError := none }
    ∧ (serverHandleCallTool (mathDispatch trivialMathHandlers)
        ⟨"not_a_registered_tool", some []⟩).isError = some true :=
  ⟨mcp_c1_dispatch_domain_distinction.1 trivialMathHandlers "math_calculate"
      [("expression", JVal.str "2++3")] (MathTools.calculate "2++3") rfl,
   mcp_c1_dispatch_domain_distinction.2.2 trivialMathHandlers "not_a_registered_tool" []
      (by decide)⟩

/-- C2: for every tool name and every dispatch table (so in particular
for the math and date servers, and independently of any handler — no
handler is invoked), a call-tool request whose `arguments` field is
absent is answered with `isError:true` and a ToolResult whose `success`
is `false` and whose error message is `No arguments provided`. -/
theorem mcp_c2_no_arguments
    (dispatch : String → ArgMap → Except String ToolResult) (name : String) :
    serverHandleCallTool dispatch ⟨name, none⟩
      = { content := [{ payload :=
            { success := false, error := some "No arguments provided" } }],
          isError := some true } := rfl

/-- C3 counterexample: calling the unregistered name `does_not_exist`
yields a ToolResult whose error is `Tool execution failed: Unknown tool:
does_not_exist` — not exactly `Unknown tool: does_not_exist` as the claim
states (the `default:` throw is wrapped by the catch block). -/
theorem mcp_c3_counterexample :
    (serverHandleCallTool (mathDispatch trivialMathHandlers)
        ⟨"does_not_exist", some []⟩).content
      = [{ payload := { success := false,
                        error := some "Tool execution failed: Unknown tool: does_not_exist" } }]
    ∧ some "Tool execution failed: Unknown tool: does_not_exist"
        ≠ some "Unknown tool: does_not_exist" :=
  ⟨by with_unfolding_all rfl, by decide⟩

/-- C3 (amended): for every call-tool request whose tool name is not
registered, the response has `isError:true` and its serialized ToolResult
has `success:false` with error exactly
`Tool execution failed: Unknown tool: <name>` (which contains
`Unknown tool: <name>`). -/
theorem mcp_c3_unknown_tool (h : MathHandlers) (name : String) (args : ArgMap)
    (hname : name ∉ mathToolNames) :
    serverHandleCallTool (mathDispatch h) ⟨name, some args⟩
      = { content := [{ payload := { success := false,
                                     error := some ("Tool execution failed: Unknown tool: " ++ name) } }],
          isError := some true } := by
  simp only [mathToolNames, List.mem_cons, List.not_mem_nil, or_false, not_or] at hname
  obtain ⟨h1, h2, h3, h4, h5, h6⟩ := hname
  simp [serverHandleCallTool, mathDispatch, h1, h2, h3, h4, h5, h6]
  rfl

/-- Witness for the amended C3 at the concrete name `does_not_exist`. -/
theorem mcp_c3_unknown_tool_witness :
    serverHandleCallTool (mathDispatch trivialMathHandlers) ⟨"does_not_exist", some []⟩
      = { content := [{ payload := { success := false,
                                     error := some ("Tool execution failed: Unknown tool: " ++ "does_not_exist") } }],
          isError := some true } :=
  mcp_c3_unknown_tool trivialMathHandlers "does_not_exist" [] (by decide)

/-- C4 (code bug): with the default environment configuration, the
regex-tools server passes `enableDnsRebindingProtection: false`
("Temporarily disable for debugging") and the date-tools server omits
the option (SDK default: disabled), so a request whose `Host` header is
`evil.example.com` — not in the configured allow-list — still reaches
the Protocol Session on those two servers, while the math and string
servers reject it at the transport boundary as the claim requires. -/
theorem http_c4_dns_rebinding_gap :
    (regexTransportConfig none none).enableDnsRebindingProtection = false
    ∧ transportAcceptsRequest (regexTransportConfig none none) "evil.example.com" none = true
    ∧ (dateTransportConfig none none).enableDnsRebindingProtection = false
    ∧ transportAcceptsRequest (dateTransportConfig none none) "evil.example.com" none = true
    ∧ (mathTransportConfig none none).enableDnsRebindingProtection = true
    ∧ transportAcceptsRequest (mathTransportConfig none none) "evil.example.com" none = false
    ∧ (stringTransportConfig none none).enableDnsRebindingProtection = true
    ∧ transportAcceptsRequest (stringTransportConfig none none) "evil.example.com" none = false
    ∧ transportAcceptsRequest (mathTransportConfig none none) "127.0.0.1" none = true := by
  with_unfolding_all decide

/-- C5: calling `math_calculate` with expression
`(10 + 5) * 2 - 8 / 4` returns a successful ToolResult whose result
value is 28 with type `integer`, delivered without `isError`. -/
theorem mcp_c5_calculate_scenario_a (h : MathHandlers) :
    serverHandleCallTool (mathDispatch h)
        ⟨"math_calculate", some [("expression", JVal.str "(10 + 5) * 2 - 8 / 4")]⟩
      = { content := [{ payload := { success := true,
                                     result := some (.obj
                                       [("expression", .str "(10 + 5) * 2 - 8 / 4"),
                                        ("sanitized", .str "(10 + 5) * 2 - 8 / 4"),
                                        ("value", .num 28),
                                        ("type", .str "integer")]),
                                     metadata := some (.obj
                                       [("originalExpression", .str "(10 + 5) * 2 - 8 / 4"),
                                        ("evaluatedAs", .str "(10 + 5) * 2 - 8 / 4")]) } }],
          isError := none } := by
  with_unfolding_all rfl

/-- C6: calling `math_calculate` with expression `5 / 0` returns a
ToolResult with `success:false` whose error message contains
`finite number`, delivered as a normal response with `isError` unset. -/
theorem mcp_c6_divide_by_zero (h : MathHandlers) :
    serverHandleCallTool (mathDispatch h)
        ⟨"math_calculate", some [("expression", JVal.str "5 / 0")]⟩
      = { content := [{ payload := { success := false,
                                     error := some "Result is not a finite number (division by zero or invalid operation)" } }],
          isError := none }
    ∧ "Result is not a finite number (division by zero or invalid operation)"
        = "Result is not a " ++ "finite number"
          ++ " (division by zero or invalid operation)" :=
  ⟨by with_unfolding_all rfl, by with_unfolding_all rfl⟩

/-- C7: calling `date_compare` with the two equal instants
`2023-06-15T10:00:00Z` returns a successful ToolResult whose
`result.comparison.equal` is `true` and whose
`result.differences.milliseconds` is 0, delivered without `isError`. -/
theorem date_c7_compare_equal_instants (h : DateHandlers) :
    serverHandleCallTool (dateDispatch h)
        ⟨"date_compare", some [("date1", JVal.str "2023-06-15T10:00:00Z"),
                               ("date2", JVal.str "2023-06-15T10:00:00Z")]⟩
      = { content := [{ payload := DateTools.compare (.str "2023-06-15T10:00:00Z")
                          (.str "2023-06-15T10:00:00Z") none }], isError := none }
    ∧ (DateTools.compare (.str "2023-06-15T10:00:00Z")
        (.str "2023-06-15T10:00:00Z") none).success = true
    ∧ ((DateTools.compare (.str "2023-06-15T10:00:00Z")
          (.str "2023-06-15T10:00:00Z") none).result.bind
        (fun r => r.getField "comparison")).bind (fun c => c.getField "equal")
      = some (.bool true)
    ∧ ((DateTools.compare (.str "2023-06-15T10:00:00Z")
          (.str "2023-06-15T10:00:00Z") none).result.bind
        (fun r => r.getField "differences")).bind (fun c => c.getField "milliseconds")
      = some (.num 0) :=
  ⟨by with_unfolding_all rfl, by with_unfolding_all rfl,
   by with_unfolding_all rfl, by with_unfolding_all rfl⟩

/-- C8 counterexample: the claim quantifies over every registered tool,
but `date_info` reads the current wall clock and embeds it in its result
content: with the identical fixed argument `2023-06-15T10:00:00Z`, an
invocation while the clock reads 2023-01-01T00:00:00Z returns
`relative.isInPast = false` while an invocation at 2024-01-01T00:00:00Z
returns `relative.isInPast = true`, so the two results are not
byte-identical. -/
theorem regex_c8_counterexample :
    ((DateTools.info (.str "2023-06-15T10:00:00Z") 1672531200000).result.bind
        (fun r => r.getField "relative")).bind (fun r => r.getField "isInPast")
      = some (.bool false)
    ∧ ((DateTools.info (.str "2023-06-15T10:00:00Z") 1704067200000).result.bind
        (fun r => r.getField "relative")).bind (fun r => r.getField "isInPast")
      = some (.bool true)
    ∧ DateTools.info (.str "2023-06-15T10:00:00Z") 1672531200000
        ≠ DateTools.info (.str "2023-06-15T10:00:00Z") 1704067200000 := by
  refine ⟨by with_unfolding_all rfl, by with_unfolding_all rfl, ?_⟩
  intro heq
  have h1 : ((DateTools.info (.str "2023-06-15T10:00:00Z") 1672531200000).result.bind
      (fun r => r.getField "relative")).bind (fun r => r.getField "isInPast")
      = some (.bool false) := by with_unfolding_all rfl
  have h2 : ((DateTools.info (.str "2023-06-15T10:00:00Z") 1704067200000).result.bind
      (fun r => r.getField "relative")).bind (fun r => r.getField "isInPast")
      = some (.bool true) := by with_unfolding_all rfl
  rw [heq] at h1
  rw [h1] at h2
  simp at h2

/-- C8 (amended): not every tool is invocation-deterministic —
`date_info` embeds the current wall clock in its result, so the same
fixed arguments can produce different result content at different times
(the counterexample above); `regex_validate`, whose result depends on its
pattern and flags arguments alone, returns one fixed content on every
invocation — with pattern `\d+` and no flags (the server defaults
`flags` to `""`) it always returns the same response, whose result
contains `isValid:true`, `source` `\d+`, and `compiledFlags` `""`,
independently of the rest of the handler table. -/
theorem regex_c8_validate_fixed_result :
    (∀ h : RegexHandlers,
      serverHandleCallTool (regexDispatch h)
          ⟨"regex_validate", some [("pattern", JVal.str "\\d+")]⟩
        = { content := [{ payload := RegexTools.validate "\\d+" (some "") }],
            isError := none })
    ∧ (RegexTools.validate "\\d+" (some "")).result.bind
        (fun r => r.getField "isValid") = some (.bool true)
    ∧ (RegexTools.validate "\\d+" (some "")).result.bind
        (fun r => r.getField "source") = some (.str "\\d+")
    ∧ (RegexTools.validate "\\d+" (some "")).result.bind
        (fun r => r.getField "compiledFlags") = some (.str "") :=
  ⟨fun _ => by with_unfolding_all rfl,
   by with_unfolding_all rfl, by with_unfolding_all rfl, by with_unfolding_all rfl⟩

/-- C9: `RegexTools.validate` returns `success:true` for every pattern
and flags; when compilation fails, the failure is reported inside the
result as `isValid:false` with the message in `result.error`, never as a
top-level `success:false`. -/
theorem regex_c9_validate_always_success (pattern : String) (flags : Option String) :
    (RegexTools.validate pattern flags).success = true
    ∧ (∀ msg, jsRegExpCompile pattern (flags.getD "") = .error msg →
        (RegexTools.validate pattern flags).result.bind
            (fun r => r.getField "isValid") = some (.bool false)
        ∧ (RegexTools.validate pattern flags).result.bind
            (fun r => r.getField "error") = some (.str msg)) := by
  constructor
  · cases hc : jsRegExpCompile pattern (flags.getD "") with
    | ok c => simp [RegexTools.validate, hc]
    | error m => simp [RegexTools.validate, hc]
  · intro msg hmsg
    constructor
    · simp [RegexTools.validate, hmsg, JVal.getField, List.find?]
    · simp [RegexTools.validate, hmsg, JVal.getField, List.find?]

/-- Witness for C9 at the invalid pattern `(` (unterminated group). -/
theorem regex_c9_witness :
    (RegexTools.validate "(" none).success = true
    ∧ (RegexTools.validate "(" none).result.bind
        (fun r => r.getField "isValid") = some (.bool false)
    ∧ (RegexTools.validate "(" none).result.bind
        (fun r => r.getField "error") = some (.str "Invalid regular expression: /(/") :=
  ⟨(regex_c9_validate_always_success "(" none).1,
   ((regex_c9_validate_always_success "(" none).2 "Invalid regular expression: /(/" rfl).1,
   ((regex_c9_validate_always_success "(" none).2 "Invalid regular expression: /(/" rfl).2⟩

/-- C10: `MathTools.calculate` answers every expression containing a
character outside digits, `+ - * / ( ) .` and space with `success:false`
and the fixed invalid-characters message, before any evaluation: the
sanitized form differs from the expression exactly when such a character
occurs, and the guard returns immediately then. -/
theorem math_c10_sanitize_guard (expression : String)
    (h : ∃ c ∈ expression.data, allowedChar c = false) :
    MathTools.calculate expression
      = { success := false,
          error := some "Invalid characters in expression. Only numbers, +, -, *, /, (, ), and spaces are allowed." } := by
  have hne : sanitizeExpr expression ≠ expression := by
    intro he
    obtain ⟨c, hc, hcf⟩ := h
    have hdata : expression.data.filter allowedChar = expression.data := by
      have := congrArg String.data he
      simpa [sanitizeExpr] using this
    have hall := List.filter_eq_self.mp hdata
    have := hall c hc
    simp [hcf] at this
  simp only [MathTools.calculate]
  rw [if_pos hne]

/-- Witness for C10 at the concrete expression `2^3`. -/
theorem math_c10_witness :
    (∃ c ∈ ("2^3" : String).data, allowedChar c = false)
    ∧ MathTools.calculate "2^3"
        = { success := false,
            error := some "Invalid characters in expression. Only numbers, +, -, *, /, (, ), and spaces are allowed." } :=
  ⟨by decide, math_c10_sanitize_guard "2^3" (by decide)⟩
